import Mathlib

/-!
Verification development for the YouTubeTools playlist dashboard (src/app.py).

The Python source is shallowly embedded as follows.

Credential store (src/app.py lines 70-219): credential records are Python
dicts whose values are None, strings, numbers, datetimes or lists of
strings; we model the values by `PyVal` and the dict by a fixed-field
structure `Cred` (one field per key that the code ever reads or writes;
a missing key and a key stored as None are indistinguishable through
`dict.get`, which is the only read operation used, so both are `PyVal.vnone`).
Python truthiness of those values is `pytruthy`.  The ambient configuration
(the CLIENT_ID / CLIENT_SECRET environment values, `datetime.fromisoformat`
and `datetime.isoformat`, which we do not re-implement) is a parameter `Env`;
datetimes are naive-UTC microsecond counts (`Int`), so Python's
`datetime.fromtimestamp(ms / 1000, tz=utc)` on an integer millisecond count
is exactly `ms * 1000` microseconds.

Request handlers (src/app.py lines 313-579): the external YouTube API is an
oracle `World` giving the outcome of each write call (`none` = success,
`some msg` = the exception message raised) and the (flattened, fully
paginated) item list of each playlist; every handler returns the list of
external calls it attempts (`Call`) together with its JSON response.
Python loops that mutate `failures` / counters are embedded as
accumulator-threading recursions appending at the end, exactly as the
source appends.
-/

/-- Model of the Python values stored in credential dicts: None, str,
int, datetime (naive UTC, microseconds since the epoch) and list of str. -/
inductive PyVal where
  | vnone
  | vstr (s : String)
  | vint (n : Int)
  | vdt (micros : Int)
  | vlist (l : List String)
deriving DecidableEq, Repr

/-- Python truthiness for `PyVal` (None, "", 0 and [] are falsy;
datetimes are always truthy). -/
def pytruthy : PyVal → Bool
  | .vnone => false
  | .vstr s => s ≠ ""
  | .vint n => n ≠ 0
  | .vdt _ => true
  | .vlist l => l ≠ []

/-- Python's short-circuit `a or b` on values: the first operand if it is
truthy, otherwise the second. -/
def pyOr (a b : PyVal) : PyVal := if pytruthy a then a else b

/-- Credential dict (src/app.py): one field per key read or written by
`credentials_to_dict`, `normalize_saved_credentials` and `save_credentials`.
`PyVal.vnone` stands for an absent key (or one stored as None). -/
structure Cred where
  token : PyVal := .vnone
  refresh_token : PyVal := .vnone
  token_uri : PyVal := .vnone
  client_id : PyVal := .vnone
  client_secret : PyVal := .vnone
  scopes : PyVal := .vnone
  scope : PyVal := .vnone
  access_token : PyVal := .vnone
  expiry : PyVal := .vnone
  expiry_date : PyVal := .vnone
deriving DecidableEq, Repr

/-- Module constant SCOPES (src/app.py line 13). -/
def SCOPES : List String := ["https://www.googleapis.com/auth/youtube"]

/-- Ambient configuration of the credential store: the CLIENT_ID and
CLIENT_SECRET environment values (src/app.py lines 29-30; a string or None)
and the two datetime conversions used by the code, which we take as
abstract parameters.  `parseIso` models `datetime.fromisoformat` followed
by the normalization to a naive-UTC value on src/app.py lines 161-164
(`none` models the ValueError path); `isoFormat` models
`datetime.isoformat` (src/app.py line 80). -/
structure Env where
  clientIdEnv : PyVal
  clientSecretEnv : PyVal
  parseIso : String → Option Int
  isoFormat : Int → String

/-- Default token endpoint used by `normalize_saved_credentials`
(src/app.py line 181). -/
def defaultTokenUri : String := "https://oauth2.googleapis.com/token"

/-- Model of `normalize_saved_credentials` (src/app.py lines 154-187).
The `data.get("token")` branch is checked first; the provider-native
`data.get("access_token")` branch second; any other dict yields None. -/
def normalize_saved_credentials (env : Env) (data : Cred) : Option Cred :=
  if pytruthy data.token then
    some (match data.expiry with
      | .vstr s =>
        match env.parseIso s with
        | some t => { data with expiry := .vdt t }
        | none => { data with expiry := .vnone }
      | _ => data)
  else if pytruthy data.access_token then
    let scopes0 := pyOr data.scope (pyOr data.scopes (.vlist SCOPES))
    let scopes := match scopes0 with
      | .vstr s => PyVal.vlist ((s.splitOn " ").filter (fun t => t ≠ ""))
      | v => v
    let expiry := match data.expiry_date with
      | .vint ms => PyVal.vdt (ms * 1000)
      | _ => PyVal.vnone
    some {
      token := data.access_token,
      refresh_token := data.refresh_token,
      token_uri := pyOr data.token_uri (.vstr defaultTokenUri),
      client_id := pyOr data.client_id env.clientIdEnv,
      client_secret := pyOr data.client_secret env.clientSecretEnv,
      scopes := scopes,
      expiry := expiry }
  else none

/-- Result of `json.load` on the token file when reading succeeds:
either a JSON value that is not an object (so that
`normalize_saved_credentials` hits its `isinstance(data, dict)` guard and
returns None), or an object, modelled as a `Cred`. -/
inductive StoredVal where
  | nonDict
  | dict (d : Cred)
deriving DecidableEq

/-- Observable state of the token file for `load_saved_credentials`:
absent (`os.path.exists` is false), unreadable (`open`/read raises
OSError), corrupt (`json.load` raises JSONDecodeError), or readable with
a parsed JSON value. -/
inductive TokenFile where
  | absent
  | readOSError
  | badJson
  | stored (v : StoredVal)
deriving DecidableEq

/-- Model of opening and parsing the token file (src/app.py lines 194-195):
the body of the `try` either raises OSError / json.JSONDecodeError or
produces a JSON value. -/
def read_token_file : TokenFile → Except Unit StoredVal
  | .absent => .error ()
  | .readOSError => .error ()
  | .badJson => .error ()
  | .stored v => .ok v

/-- Model of `load_saved_credentials` (src/app.py lines 190-198): a missing
file returns None; the caught OSError / JSONDecodeError paths return None;
otherwise the parsed value is normalized (a non-dict normalizes to None). -/
def load_saved_credentials (env : Env) (fs : TokenFile) : Option Cred :=
  match fs with
  | .absent => none
  | fs =>
    match read_token_file fs with
    | .error _ => none
    | .ok .nonDict => none
    | .ok (.dict d) => normalize_saved_credentials env d

/-- Model of a `google.oauth2.credentials.Credentials` object as consumed
by `credentials_to_dict` (src/app.py lines 70-81): each attribute is a
string or None, scopes a list of strings, expiry a datetime or None. -/
structure GoogleCreds where
  gtoken : Option String
  grefresh_token : Option String
  gtoken_uri : Option String
  gclient_id : Option String
  gclient_secret : Option String
  gscopes : List String
  gexpiry : Option Int
deriving DecidableEq

/-- Conversion of a string-or-None Python attribute to a `PyVal`. -/
def optStr : Option String → PyVal
  | some s => .vstr s
  | none => .vnone

/-- Model of `credentials_to_dict` (src/app.py lines 70-81): the expiry key
is only written when the expiry attribute is truthy, as an ISO string. -/
def credentials_to_dict (env : Env) (c : GoogleCreds) : Cred :=
  { token := optStr c.gtoken,
    refresh_token := optStr c.grefresh_token,
    token_uri := optStr c.gtoken_uri,
    client_id := optStr c.gclient_id,
    client_secret := optStr c.gclient_secret,
    scopes := .vlist c.gscopes,
    expiry := match c.gexpiry with
      | some t => .vstr (env.isoFormat t)
      | none => .vnone }

/-- Model of `save_credentials` (src/app.py lines 201-219): the value of the
record handed to `json.dump`, after merging the freshly serialized snapshot
with the previously persisted record (`load_saved_credentials() or {}`).
Each of refresh_token, token_uri, client_id and client_secret is inherited
from the old record when the new snapshot's value is falsy and the old one
is truthy. -/
def save_credentials (env : Env) (fs : TokenFile) (c : GoogleCreds) : Cred :=
  let existing := (load_saved_credentials env fs).getD {}
  let data := credentials_to_dict env c
  let data := if !pytruthy data.refresh_token && pytruthy existing.refresh_token then
      { data with refresh_token := existing.refresh_token } else data
  let data := if !pytruthy data.token_uri && pytruthy existing.token_uri then
      { data with token_uri := existing.token_uri } else data
  let data := if !pytruthy data.client_id && pytruthy existing.client_id then
      { data with client_id := existing.client_id } else data
  let data := if !pytruthy data.client_secret && pytruthy existing.client_secret then
      { data with client_secret := existing.client_secret } else data
  data

/-- Concrete environment used by witnesses: client id and secret set in the
environment, an ISO parser that always fails, a fixed ISO formatter. -/
def envW : Env :=
  { clientIdEnv := .vstr "env-client-id",
    clientSecretEnv := .vstr "env-client-secret",
    parseIso := fun _ => none,
    isoFormat := fun _ => "2026-01-01T00:00:00" }

/-- Concrete provider-native credential record used by witnesses. -/
def credW : Cred :=
  { access_token := .vstr "at", refresh_token := .vstr "rt",
    scope := .vstr "scope-a scope-b", expiry_date := .vint 1700000000123 }

/-- C7: load_saved_credentials returns an absent value (never an error) when
the token file is missing, unreadable or corrupt JSON, or parses to a
non-object; otherwise it returns the persisted record in canonical shape,
i.e. the result of normalize_saved_credentials. -/
theorem load_absent_on_missing_or_corrupt (env : Env) :
    load_saved_credentials env .absent = none
    ∧ load_saved_credentials env .readOSError = none
    ∧ load_saved_credentials env .badJson = none
    ∧ load_saved_credentials env (.stored .nonDict) = none
    ∧ ∀ d : Cred, load_saved_credentials env (.stored (.dict d)) =
        normalize_saved_credentials env d :=
  ⟨rfl, rfl, rfl, rfl, fun _ => rfl⟩

/-- C5: normalize_saved_credentials is idempotent on its own output for every
provider-native input record (one whose canonical token field is falsy and
whose provider access_token field is truthy): re-normalizing the canonical
record produced by the first application returns it unchanged. -/
theorem normalize_idempotent_on_provider_shape (env : Env) (d : Cred)
    (h1 : pytruthy d.token = false) (h2 : pytruthy d.access_token = true) :
    (normalize_saved_credentials env d).bind (normalize_saved_credentials env)
      = normalize_saved_credentials env d := by
  cases hed : d.expiry_date <;>
    simp [normalize_saved_credentials, h1, h2, hed]

/-- Witness for C5: idempotence evaluated on the concrete provider-native
record credW. -/
theorem normalize_idempotent_witness :
    (normalize_saved_credentials envW credW).bind (normalize_saved_credentials envW)
      = normalize_saved_credentials envW credW :=
  normalize_idempotent_on_provider_shape envW credW (by decide) (by decide)

/-- C6: normalize_saved_credentials checks the canonical token field first
(a record with a truthy canonical token keeps token, refresh_token and the
untouched provider field regardless of the provider field's value), handles
the provider shape second, where it converts an epoch-millisecond expiry to
the absolute naive-UTC timestamp ms * 1000 microseconds, splits a
space-joined scope string into the list of its nonempty scope tokens, and
falls back to the configured environment client id / secret when the record
lacks them; a record with neither token field truthy normalizes to none. -/
theorem normalize_shape_detection_and_conversions (env : Env) (d : Cred) :
    (pytruthy d.token = true →
      ∃ c, normalize_saved_credentials env d = some c ∧
        c.token = d.token ∧ c.refresh_token = d.refresh_token ∧
        c.access_token = d.access_token)
    ∧ (pytruthy d.token = false → pytruthy d.access_token = true →
      ∃ c, normalize_saved_credentials env d = some c ∧
        c.token = d.access_token ∧ c.refresh_token = d.refresh_token ∧
        (∀ ms : Int, d.expiry_date = .vint ms → c.expiry = .vdt (ms * 1000)) ∧
        (∀ s : String, d.scope = .vstr s → s ≠ "" →
          c.scopes = .vlist ((s.splitOn " ").filter (fun t => t ≠ ""))) ∧
        (pytruthy d.client_id = false → c.client_id = env.clientIdEnv) ∧
        (pytruthy d.client_secret = false → c.client_secret = env.clientSecretEnv))
    ∧ (pytruthy d.token = false → pytruthy d.access_token = false →
      normalize_saved_credentials env d = none) := by
  refine ⟨?_, ?_, ?_⟩
  · intro h
    unfold normalize_saved_credentials
    rw [if_pos h]
    split
    · split
      · exact ⟨_, rfl, rfl, rfl, rfl⟩
      · exact ⟨_, rfl, rfl, rfl, rfl⟩
    · exact ⟨_, rfl, rfl, rfl, rfl⟩
  · intro h1 h2
    simp only [normalize_saved_credentials, h1, h2, Bool.false_eq_true, if_false, if_true]
    refine ⟨_, rfl, rfl, rfl, ?_, ?_, ?_, ?_⟩
    · intro ms hms
      simp [hms]
    · intro s hs hne
      simp [hs, pyOr, pytruthy, hne]
    · intro h
      simp [pyOr, h]
    · intro h
      simp [pyOr, h]
  · intro h1 h2
    simp [normalize_saved_credentials, h1, h2]

/-- Witness for C6: the provider-native record credW normalizes with its
epoch-millisecond expiry converted and the environment client id filled in. -/
theorem normalize_shape_detection_witness :
    ∃ c, normalize_saved_credentials envW credW = some c ∧
      c.expiry = PyVal.vdt 1700000000123000 ∧
      c.client_id = PyVal.vstr "env-client-id" := by
  obtain ⟨c, hc, -, -, hexp, -, hcid, -⟩ :=
    (normalize_shape_detection_and_conversions envW credW).2.1 (by decide) (by decide)
  exact ⟨c, hc, hexp 1700000000123 rfl, hcid (by decide)⟩

/-- C1: the record written by save_credentials inherits the previously
persisted refresh token whenever the new snapshot's refresh token is falsy
and the stored one is truthy; the same retention holds for token_uri,
client_id and client_secret. -/
theorem save_preserves_previous_secrets (env : Env) (fs : TokenFile)
    (c : GoogleCreds) (existing : Cred)
    (hex : (load_saved_credentials env fs).getD {} = existing) :
    (pytruthy (credentials_to_dict env c).refresh_token = false →
      pytruthy existing.refresh_token = true →
      (save_credentials env fs c).refresh_token = existing.refresh_token)
    ∧ (pytruthy (credentials_to_dict env c).token_uri = false →
      pytruthy existing.token_uri = true →
      (save_credentials env fs c).token_uri = existing.token_uri)
    ∧ (pytruthy (credentials_to_dict env c).client_id = false →
      pytruthy existing.client_id = true →
      (save_credentials env fs c).client_id = existing.client_id)
    ∧ (pytruthy (credentials_to_dict env c).client_secret = false →
      pytruthy existing.client_secret = true →
      (save_credentials env fs c).client_secret = existing.client_secret) := by
  subst hex
  refine ⟨?_, ?_, ?_, ?_⟩ <;> intro h1 h2 <;>
    simp [save_credentials, h1, h2,
      apply_ite Cred.refresh_token, apply_ite Cred.token_uri,
      apply_ite Cred.client_id, apply_ite Cred.client_secret]

/-- Previously persisted canonical record used by the C1 witness. -/
def storedW : Cred :=
  { token := .vstr "old-token", refresh_token := .vstr "old-refresh",
    token_uri := .vstr "old-uri", client_id := .vstr "old-id",
    client_secret := .vstr "old-secret" }

/-- Token file state holding storedW, used by the C1 witness. -/
def fsW : TokenFile := .stored (.dict storedW)

/-- Fresh credential snapshot lacking refresh token, token endpoint, client
id and client secret, used by the C1 witness. -/
def gcredsW : GoogleCreds :=
  { gtoken := some "new-token", grefresh_token := none, gtoken_uri := none,
    gclient_id := none, gclient_secret := none, gscopes := SCOPES,
    gexpiry := none }

/-- Witness for C1: saving a snapshot with no refresh token over storedW
keeps the stored refresh token (and the other three stored fields). -/
theorem save_preserves_witness :
    (save_credentials envW fsW gcredsW).refresh_token = PyVal.vstr "old-refresh"
    ∧ (save_credentials envW fsW gcredsW).client_secret = PyVal.vstr "old-secret" := by
  have h := save_preserves_previous_secrets envW fsW gcredsW storedW (by decide)
  exact ⟨(h.1 (by decide) (by decide)).trans (by decide),
    (h.2.2.2 (by decide) (by decide)).trans (by decide)⟩

/-- External calls a request handler can attempt against the YouTube API or
the token endpoint.  `refreshToken` is the credential-refresh exchange
performed inside `get_youtube_client` (src/app.py lines 110-112). -/
inductive Call where
  | refreshToken
  | playlistsDelete (id : String)
  | playlistsUpdate (id : String) (title : String)
  | playlistItemsList (playlistId : String)
  | playlistItemsInsert (playlistId : String) (videoId : String)
  | playlistItemsDelete (id : Option String)
deriving DecidableEq, Repr

/-- A playlist item as consumed by dedupe_playlist and merge_playlists
(contentDetails part): `item.get("id")` and
`item.get("contentDetails").get("videoId")`, each possibly missing. -/
structure SrcItem where
  itemId : Option String
  videoId : Option String
deriving DecidableEq, Repr

/-- Oracle for the external world a handler runs against: whether the
session credential is expired and has a refresh token (so that
`get_youtube_client` performs a refresh exchange), the outcome of each
mutating API call (`none` = success, `some msg` = exception message), and
the fully paginated item list of each playlist. -/
structure World where
  credExpired : Bool
  hasRefreshToken : Bool
  deletePlaylistErr : String → Option String
  deleteItemErr : Option String → Option String
  insertErr : String → String → Option String
  updateErr : String → String → Option String
  itemsOf : String → List SrcItem

/-- Calls made by `get_youtube_client` (src/app.py lines 101-113): a refresh
exchange exactly when the credential is expired and a refresh token is
present. -/
def clientCalls (w : World) : List Call :=
  if w.credExpired && w.hasRefreshToken then [Call.refreshToken] else []

/-- An entry of a `failures` list: a Python dict with an error message and
whichever identifier keys the appending site sets ("id", "playlist_id",
"video_id" or "videoId"); unset keys are `none`. -/
structure Failure where
  fid : Option String := none
  playlist_id : Option String := none
  video_id : Option String := none
  videoId : Option String := none
  error : String
deriving DecidableEq, Repr

/-- A JSON payload field expected to hold a list, as seen through
`payload.get(key) or []` followed by the isinstance-list check: a falsy
value (absent, null, "", 0, false — all replaced by `[]`), a truthy
non-list value, or an actual list. -/
inductive JsonList (α : Type) where
  | noValue
  | nonList
  | jlist (l : List α)
deriving DecidableEq

/-- The identifier list a handler actually iterates, when the payload field
passes validation (the `or []` / isinstance / nonempty checks of e.g.
src/app.py lines 319-320): `none` exactly when the handler rejects. -/
def listArg {α : Type} : JsonList α → Option (List α)
  | .jlist l => if l.isEmpty then none else some l
  | _ => none

/-- Truthiness of an optional string payload field (`not x` in Python:
absent/None and "" are falsy). -/
def truthyS (o : Option String) : Bool := o.getD "" ≠ ""

/-- Outcome of a handler: a 400 validation rejection or a JSON response. -/
inductive HResult (α : Type) where
  | invalid (msg : String)
  | ok (r : α)
deriving DecidableEq, Repr

/-- Response body of the bulk-delete endpoints. -/
structure BulkResp where
  success : Bool
  failures : List Failure
deriving DecidableEq, Repr

/-- Loop of `delete_bulk` (src/app.py lines 324-329): one
`playlists().delete` attempt per identifier in order; a raised exception
appends an (id, message) failure and never aborts the remaining items. -/
def delete_bulk_loop (w : World) :
    List String → List Call × List Failure → List Call × List Failure
  | [], st => st
  | i :: rest, (calls, failures) =>
    let calls := calls ++ [Call.playlistsDelete i]
    match w.deletePlaylistErr i with
    | none => delete_bulk_loop w rest (calls, failures)
    | some e => delete_bulk_loop w rest (calls, failures ++ [{ fid := some i, error := e }])

/-- Model of the `delete_bulk` handler (src/app.py lines 313-330), after the
authentication guard: payload validation, then `get_youtube_client`, then
the per-identifier deletion loop. -/
def delete_bulk (w : World) (playlist_ids : JsonList String) :
    List Call × HResult BulkResp :=
  match listArg playlist_ids with
  | none => ([], .invalid "No playlists provided")
  | some l =>
    let (calls, failures) := delete_bulk_loop w l (clientCalls w, [])
    (calls, .ok { success := failures.isEmpty, failures := failures })

/-- Loop of `delete_playlist_items_bulk` (src/app.py lines 439-444): one
`playlistItems().delete` attempt per item identifier in order. -/
def delete_items_loop (w : World) :
    List String → List Call × List Failure → List Call × List Failure
  | [], st => st
  | i :: rest, (calls, failures) =>
    let calls := calls ++ [Call.playlistItemsDelete (some i)]
    match w.deleteItemErr (some i) with
    | none => delete_items_loop w rest (calls, failures)
    | some e => delete_items_loop w rest (calls, failures ++ [{ fid := some i, error := e }])

/-- Model of the `delete_playlist_items_bulk` handler (src/app.py lines
428-445), after the authentication guard. -/
def delete_playlist_items_bulk (w : World) (item_ids : JsonList String) :
    List Call × HResult BulkResp :=
  match listArg item_ids with
  | none => ([], .invalid "No items provided")
  | some l =>
    let (calls, failures) := delete_items_loop w l (clientCalls w, [])
    (calls, .ok { success := failures.isEmpty, failures := failures })

/-- A raw playlist item of one `playlistItems().list` page as read by the
`playlist_items` handler (src/app.py lines 350-363): id, snippet title,
contentDetails videoId and default thumbnail url, each possibly missing. -/
structure PageItem where
  itemId : Option String
  title : Option String
  videoId : Option String
  thumbnail : Option String
deriving DecidableEq, Repr

/-- A simplified item of the `playlist_items` response (the dict built on
src/app.py lines 357-364). -/
structure SimpleItem where
  playlistItemId : Option String
  videoId : Option String
  title : String
  thumbnail : Option String
deriving DecidableEq, Repr

/-- Response body of the `playlist_items` endpoint (src/app.py lines
374-378); it carries no failure information at all. -/
structure ItemsResp where
  items : List SimpleItem
  nextPageToken : Option String
  autoRemoved : Nat
deriving DecidableEq, Repr

/-- Scan loop of `playlist_items` (src/app.py lines 350-364): the title is
`snippet.get("title") or ""`; an item titled "Deleted video" or
"Private video" is queued (its id appended to `deleted_item_ids`) and
skipped, every other item is appended to the simplified list. -/
def items_scan_loop :
    List PageItem → List SimpleItem × List (Option String) →
    List SimpleItem × List (Option String)
  | [], st => st
  | it :: rest, (simplified, dels) =>
    let t := it.title.getD ""
    if t = "Deleted video" ∨ t = "Private video" then
      items_scan_loop rest (simplified, dels ++ [it.itemId])
    else
      let entry : SimpleItem :=
        { playlistItemId := it.itemId, videoId := it.videoId,
          title := t, thumbnail := it.thumbnail }
      items_scan_loop rest (simplified ++ [entry], dels)

/-- Orphan-removal loop of `playlist_items` (src/app.py lines 366-373): one
deletion attempt per queued id; a success increments `removed_count`; an
exception is swallowed (`except Exception: pass`). -/
def orphan_delete_loop (w : World) :
    List (Option String) → List Call × Nat → List Call × Nat
  | [], st => st
  | i :: rest, (calls, n) =>
    let calls := calls ++ [Call.playlistItemsDelete i]
    match w.deleteItemErr i with
    | none => orphan_delete_loop w rest (calls, n + 1)
    | some _ => orphan_delete_loop w rest (calls, n)

/-- Model of the `playlist_items` handler (src/app.py lines 333-378), after
the authentication guard, for one fetched page with its next-page token. -/
def playlist_items (w : World) (playlist_id : String) (page : List PageItem)
    (nextTok : Option String) : List Call × ItemsResp :=
  let calls := clientCalls w ++ [Call.playlistItemsList playlist_id]
  let (simplified, dels) := items_scan_loop page ([], [])
  let (calls, removed) := orphan_delete_loop w dels (calls, 0)
  (calls, { items := simplified, nextPageToken := nextTok, autoRemoved := removed })

/-- Duplicate scan of `dedupe_playlist` (src/app.py lines 398-409): a single
pass keeping a set of video ids already seen; items with a falsy video id
or item id are skipped; an item whose video id is already in the set has
its item id appended to the duplicates queue, otherwise the video id is
added to the set. -/
def dedupe_scan : List SrcItem → Finset String → List String
  | [], _ => []
  | it :: rest, seen =>
    match it.videoId, it.itemId with
    | some v, some pid =>
      if v = "" ∨ pid = "" then dedupe_scan rest seen
      else if v ∈ seen then pid :: dedupe_scan rest seen
      else dedupe_scan rest (insert v seen)
    | _, _ => dedupe_scan rest seen

/-- Deletion loop of `dedupe_playlist` (src/app.py lines 410-416): one
deletion attempt per queued duplicate item id, failures collected. -/
def dedupe_delete_loop (w : World) :
    List String → List Call × List Failure → List Call × List Failure
  | [], st => st
  | i :: rest, (calls, failures) =>
    let calls := calls ++ [Call.playlistItemsDelete (some i)]
    match w.deleteItemErr (some i) with
    | none => dedupe_delete_loop w rest (calls, failures)
    | some e => dedupe_delete_loop w rest (calls, failures ++ [{ fid := some i, error := e }])

/-- Response body of the `dedupe_playlist` endpoint (src/app.py lines
419-425). -/
structure DedupeResp where
  success : Bool
  removed : Nat
  duplicates : Nat
  remaining : Nat
  failures : List Failure
deriving DecidableEq, Repr

/-- Model of the `dedupe_playlist` handler (src/app.py lines 381-425), after
the authentication guard: collect all items via pagination, scan for
duplicates with a seen-set starting empty, then delete the queued ids. -/
def dedupe_playlist (w : World) (playlist_id : String) :
    List Call × HResult DedupeResp :=
  let items := w.itemsOf playlist_id
  let duplicate_item_ids := dedupe_scan items ∅
  let (calls, failures) := dedupe_delete_loop w duplicate_item_ids
    (clientCalls w ++ [Call.playlistItemsList playlist_id], [])
  let removed := duplicate_item_ids.length - failures.length
  let resp : DedupeResp :=
    { success := failures.isEmpty, removed := removed,
      duplicates := duplicate_item_ids.length,
      remaining := items.length - removed, failures := failures }
  (calls, .ok resp)

/-- An element of the `items` payload list of the transfer endpoint: either
not a dict (skipped by the isinstance guard, src/app.py line 468) or a dict
read through `item.get("videoId")` and `item.get("playlistItemId")`. -/
inductive TransferEntry where
  | notDict
  | entry (videoId : Option String) (playlistItemId : Option String)
deriving DecidableEq, Repr

/-- Response body of the transfer endpoint (src/app.py lines 503-508). -/
structure TransferResp where
  success : Bool
  added : Nat
  removed : Nat
  failures : List Failure
deriving DecidableEq, Repr

/-- Insert loop of `transfer_playlist_items` (src/app.py lines 467-493):
non-dicts are skipped; a falsy videoId appends a "Missing videoId" failure;
otherwise one insert into the destination is attempted, a success
increments `added` and — in "move" mode, when the playlistItemId is truthy
— appends the item id to the `delete_after` queue, and an exception appends
a (videoId, message) failure. -/
def transfer_insert_loop (w : World) (dest : String) (mode : String) :
    List TransferEntry → List Call × List Failure × Nat × List String →
    List Call × List Failure × Nat × List String
  | [], st => st
  | .notDict :: rest, st => transfer_insert_loop w dest mode rest st
  | .entry vid pid :: rest, (calls, failures, added, delq) =>
    if truthyS vid = false then
      transfer_insert_loop w dest mode rest
        (calls, failures ++ [{ videoId := vid, error := "Missing videoId" }], added, delq)
    else
      let v := vid.getD ""
      let calls := calls ++ [Call.playlistItemsInsert dest v]
      match w.insertErr dest v with
      | none =>
        let delq := if mode = "move" && truthyS pid then delq ++ [pid.getD ""] else delq
        transfer_insert_loop w dest mode rest (calls, failures, added + 1, delq)
      | some e =>
        transfer_insert_loop w dest mode rest
          (calls, failures ++ [{ videoId := some v, error := e }], added, delq)

/-- Deletion loop of `transfer_playlist_items` (src/app.py lines 495-502):
one source-item deletion attempt per queued id; a success increments
`removed`, an exception appends an (id, message) failure. -/
def transfer_delete_loop (w : World) :
    List String → List Call × List Failure × Nat →
    List Call × List Failure × Nat
  | [], st => st
  | i :: rest, (calls, failures, removed) =>
    let calls := calls ++ [Call.playlistItemsDelete (some i)]
    match w.deleteItemErr (some i) with
    | none => transfer_delete_loop w rest (calls, failures, removed + 1)
    | some e =>
      transfer_delete_loop w rest
        (calls, failures ++ [{ fid := some i, error := e }], removed)

/-- Mode defaulting of the transfer endpoint (src/app.py line 456):
`payload.get("mode") or "copy"`. -/
def transfer_mode (mode_arg : Option String) : String :=
  if truthyS mode_arg then mode_arg.getD "" else "copy"

/-- Model of the `transfer_playlist_items` handler (src/app.py lines
448-508), after the authentication guard: mode defaulting and validation,
destination and items validation, then the insert pass, then — in "move"
mode with a nonempty queue — the deletion pass. -/
def transfer_playlist_items (w : World) (destination_id : Option String)
    (items : JsonList TransferEntry) (mode_arg : Option String) :
    List Call × HResult TransferResp :=
  let mode := transfer_mode mode_arg
  if mode ≠ "copy" ∧ mode ≠ "move" then ([], .invalid "Invalid transfer mode")
  else if truthyS destination_id = false then
    ([], .invalid "Destination playlist is required")
  else
    match listArg items with
    | none => ([], .invalid "No items provided")
    | some l =>
      let dest := destination_id.getD ""
      let (calls, failures, added, delq) :=
        transfer_insert_loop w dest mode l (clientCalls w, [], 0, [])
      let (calls, failures, removed) :=
        if mode = "move" && !delq.isEmpty then
          transfer_delete_loop w delq (calls, failures, 0)
        else (calls, failures, 0)
      let resp : TransferResp :=
        { success := failures.isEmpty, added := added,
          removed := removed, failures := failures }
      (calls, .ok resp)

/-- Model of Python's `str.strip()` (src/app.py line 521): drop whitespace
from both ends. -/
def pystrip (s : String) : String :=
  String.mk (((s.data.dropWhile Char.isWhitespace).reverse.dropWhile
    Char.isWhitespace).reverse)

/-- Response body of the merge endpoint (src/app.py line 579). -/
structure MergeResp where
  success : Bool
  failures : List Failure
  added : Nat
deriving DecidableEq, Repr

/-- Inner insert loop of `merge_playlists` for one source playlist
(src/app.py lines 539-559): items with a falsy videoId are skipped;
otherwise one insert into the target is attempted, a success increments
`added`, an exception appends a (playlist_id, video_id, message) failure. -/
def merge_insert_loop (w : World) (target pid : String) :
    List SrcItem → List Call × List Failure × Nat →
    List Call × List Failure × Nat
  | [], st => st
  | it :: rest, (calls, failures, added) =>
    if truthyS it.videoId = false then
      merge_insert_loop w target pid rest (calls, failures, added)
    else
      let v := it.videoId.getD ""
      let calls := calls ++ [Call.playlistItemsInsert target v]
      match w.insertErr target v with
      | none => merge_insert_loop w target pid rest (calls, failures, added + 1)
      | some e =>
        merge_insert_loop w target pid rest
          (calls, failures ++ [{ playlist_id := some pid, video_id := some v, error := e }], added)

/-- Copy pass of `merge_playlists` (src/app.py lines 530-560): for each
source playlist, list its items (one paginated listing, modelled as one
list call) and run the insert loop over them. -/
def merge_copy_sources (w : World) (target : String) :
    List String → List Call × List Failure × Nat →
    List Call × List Failure × Nat
  | [], st => st
  | pid :: rest, (calls, failures, added) =>
    let st := merge_insert_loop w target pid (w.itemsOf pid)
      (calls ++ [Call.playlistItemsList pid], failures, added)
    merge_copy_sources w target rest st

/-- Deletion pass of `merge_playlists` (src/app.py lines 562-567): one
playlist deletion attempt per source id, failures appended. -/
def merge_delete_loop (w : World) :
    List String → List Call × List Failure → List Call × List Failure
  | [], st => st
  | pid :: rest, (calls, failures) =>
    let calls := calls ++ [Call.playlistsDelete pid]
    match w.deletePlaylistErr pid with
    | none => merge_delete_loop w rest (calls, failures)
    | some e =>
      merge_delete_loop w rest
        (calls, failures ++ [{ playlist_id := some pid, error := e }])

/-- Model of the `merge_playlists` handler (src/app.py lines 511-579), after
the authentication guard: name stripping and validation, then the copy
pass over every source, then the deletion pass, then — when a new name was
given — the rename attempt on the target. -/
def merge_playlists (w : World) (target_id : Option String)
    (source_ids : JsonList String) (new_name : Option String) :
    List Call × HResult MergeResp :=
  let nm := new_name.map pystrip
  match listArg source_ids with
  | none => ([], .invalid "Invalid playlist selection")
  | some srcs =>
    if truthyS target_id = false then ([], .invalid "Invalid playlist selection")
    else if nm = some "" then ([], .invalid "New name is required")
    else
      let target := target_id.getD ""
      let (calls, failures, added) := merge_copy_sources w target srcs (clientCalls w, [], 0)
      let (calls, failures) := merge_delete_loop w srcs (calls, failures)
      let (calls, failures) : List Call × List Failure :=
        match nm with
        | some s =>
          if s = "" then (calls, failures)
          else
            let calls := calls ++ [Call.playlistsUpdate target s]
            match w.updateErr target s with
            | none => (calls, failures)
            | some e => (calls, failures ++ [{ playlist_id := some target, error := e }])
        | none => (calls, failures)
      let resp : MergeResp :=
        { success := failures.isEmpty, failures := failures, added := added }
      (calls, .ok resp)

/-- Specification of the failures list of a bulk operation: one entry per
failing identifier, in input order, carrying its error message. -/
def spec_bulk_failures (err : String → Option String) (l : List String) : List Failure :=
  (l.filter (fun i => (err i).isSome)).map
    (fun i => { fid := some i, error := (err i).getD "" })

/-- Specification of a bulk response: success exactly when the number of
failing identifiers is zero, the failures list as specified. -/
def spec_bulk_resp (err : String → Option String) (l : List String) : BulkResp :=
  { success := decide ((l.filter (fun i => (err i).isSome)).length = 0),
    failures := spec_bulk_failures err l }

theorem isEmpty_eq_decide_length {α : Type} (l : List α) :
    l.isEmpty = decide (l.length = 0) := by
  cases l <;> simp

theorem delete_bulk_loop_spec (w : World) (l : List String)
    (cs : List Call) (fs : List Failure) :
    delete_bulk_loop w l (cs, fs) =
      (cs ++ l.map Call.playlistsDelete,
        fs ++ spec_bulk_failures w.deletePlaylistErr l) := by
  induction l generalizing cs fs with
  | nil => simp [delete_bulk_loop, spec_bulk_failures]
  | cons i rest ih =>
    cases h : w.deletePlaylistErr i <;>
      simp [delete_bulk_loop, h, ih, spec_bulk_failures, List.filter_cons]

theorem delete_items_loop_spec (w : World) (l : List String)
    (cs : List Call) (fs : List Failure) :
    delete_items_loop w l (cs, fs) =
      (cs ++ l.map (fun i => Call.playlistItemsDelete (some i)),
        fs ++ spec_bulk_failures (fun i => w.deleteItemErr (some i)) l) := by
  induction l generalizing cs fs with
  | nil => simp [delete_items_loop, spec_bulk_failures]
  | cons i rest ih =>
    cases h : w.deleteItemErr (some i) <;>
      simp [delete_items_loop, h, ih, spec_bulk_failures, List.filter_cons]

/-- C3: for every nonempty identifier list, both bulk-delete endpoints
attempt the per-item deletion for every identifier in input order (no
failure aborts later identifiers), return success exactly when the number
of failing identifiers is zero, and return a failures list with exactly one
entry per failing identifier, in the input order of the failed
identifiers. -/
theorem bulk_delete_aggregation (w : World) (l : List String) (hl : l ≠ []) :
    (delete_bulk w (.jlist l) =
        (clientCalls w ++ l.map Call.playlistsDelete,
          .ok (spec_bulk_resp w.deletePlaylistErr l))
      ∧ (spec_bulk_failures w.deletePlaylistErr l).length =
          (l.filter (fun i => (w.deletePlaylistErr i).isSome)).length)
    ∧ (delete_playlist_items_bulk w (.jlist l) =
        (clientCalls w ++ l.map (fun i => Call.playlistItemsDelete (some i)),
          .ok (spec_bulk_resp (fun i => w.deleteItemErr (some i)) l))
      ∧ (spec_bulk_failures (fun i => w.deleteItemErr (some i)) l).length =
          (l.filter (fun i => (w.deleteItemErr (some i)).isSome)).length) := by
  have hEmpty : l.isEmpty = false := by
    cases l with
    | nil => exact absurd rfl hl
    | cons a r => rfl
  refine ⟨⟨?_, ?_⟩, ⟨?_, ?_⟩⟩
  · simp [delete_bulk, listArg, hEmpty, delete_bulk_loop_spec, spec_bulk_resp,
      isEmpty_eq_decide_length, spec_bulk_failures]
  · simp [spec_bulk_failures]
  · simp [delete_playlist_items_bulk, listArg, hEmpty, delete_items_loop_spec,
      spec_bulk_resp, isEmpty_eq_decide_length, spec_bulk_failures]
  · simp [spec_bulk_failures]

/-- Concrete world used by witnesses: an expired credential with a refresh
token, deletions failing for playlist p2 and item i2, inserts failing for
video v2, and two small playlists A and B. -/
def worldW : World :=
  { credExpired := true, hasRefreshToken := true,
    deletePlaylistErr := fun i => if i = "p2" then some "boom" else none,
    deleteItemErr := fun i => if i = some "i2" then some "gone" else none,
    insertErr := fun _ v => if v = "v2" then some "dup" else none,
    updateErr := fun _ _ => none,
    itemsOf := fun p =>
      if p = "A" then [⟨some "a1", some "v1"⟩, ⟨some "a2", some "v2"⟩]
      else if p = "B" then [⟨some "b1", some "v3"⟩] else [] }

/-- Witness for C3: deleting p1, p2, p3 in worldW performs a refresh and all
three deletion attempts, and reports the single p2 failure. -/
theorem bulk_delete_witness :
    delete_bulk worldW (.jlist ["p1", "p2", "p3"]) =
      ([Call.refreshToken, Call.playlistsDelete "p1", Call.playlistsDelete "p2",
        Call.playlistsDelete "p3"],
        .ok { success := false, failures := [{ fid := some "p2", error := "boom" }] }) := by
  have h := (bulk_delete_aggregation worldW ["p1", "p2", "p3"] (by decide)).1.1
  exact h.trans (by decide)

/-- C8: every malformed or empty payload is rejected with a validation
error before any external call — the refresh exchange included — is
attempted (the call trace is empty): a bulk playlist delete or bulk item
delete whose identifier field is not a nonempty list; a merge with a falsy
target or whose source field is not a nonempty list; a merge whose given
new name strips to empty; a transfer whose effective mode is neither copy
nor move; a transfer with a falsy destination; a transfer whose items field
is not a nonempty list. -/
theorem validation_short_circuits (w : World) :
    (∀ v : JsonList String, listArg v = none →
      delete_bulk w v = ([], .invalid "No playlists provided"))
    ∧ (∀ v : JsonList String, listArg v = none →
      delete_playlist_items_bulk w v = ([], .invalid "No items provided"))
    ∧ (∀ (tid : Option String) (sids : JsonList String) (nm : Option String),
      truthyS tid = false ∨ listArg sids = none →
      merge_playlists w tid sids nm = ([], .invalid "Invalid playlist selection"))
    ∧ (∀ (tid : Option String) (sids : JsonList String) (nm : String),
      truthyS tid = true → listArg sids ≠ none → pystrip nm = "" →
      merge_playlists w tid sids (some nm) = ([], .invalid "New name is required"))
    ∧ (∀ (dest : Option String) (items : JsonList TransferEntry) (marg : Option String),
      transfer_mode marg ≠ "copy" → transfer_mode marg ≠ "move" →
      transfer_playlist_items w dest items marg = ([], .invalid "Invalid transfer mode"))
    ∧ (∀ (dest : Option String) (items : JsonList TransferEntry) (marg : Option String),
      (transfer_mode marg = "copy" ∨ transfer_mode marg = "move") →
      truthyS dest = false →
      transfer_playlist_items w dest items marg =
        ([], .invalid "Destination playlist is required"))
    ∧ (∀ (dest : Option String) (items : JsonList TransferEntry) (marg : Option String),
      (transfer_mode marg = "copy" ∨ transfer_mode marg = "move") →
      truthyS dest = true → listArg items = none →
      transfer_playlist_items w dest items marg = ([], .invalid "No items provided")) := by
  refine ⟨?_, ?_, ?_, ?_, ?_, ?_, ?_⟩
  · intro v hv
    simp [delete_bulk, hv]
  · intro v hv
    simp [delete_playlist_items_bulk, hv]
  · intro tid sids nm h
    rcases h with h | h
    · cases hs : listArg sids with
      | none => simp [merge_playlists, hs]
      | some srcs => simp [merge_playlists, hs, h]
    · simp [merge_playlists, h]
  · intro tid sids nm h1 h2 h3
    cases hs : listArg sids with
    | none => exact absurd hs h2
    | some srcs => simp [merge_playlists, hs, h1, h3]
  · intro dest items marg h1 h2
    simp [transfer_playlist_items, h1, h2]
  · intro dest items marg h1 h2
    have hmode : ¬(transfer_mode marg ≠ "copy" ∧ transfer_mode marg ≠ "move") := by
      rcases h1 with h | h <;> simp [h]
    simp [transfer_playlist_items, hmode, h2]
  · intro dest items marg h1 h2 h3
    have hmode : ¬(transfer_mode marg ≠ "copy" ∧ transfer_mode marg ≠ "move") := by
      rcases h1 with h | h <;> simp [h]
    simp [transfer_playlist_items, hmode, h2, h3]

/-- Witness for C8: concrete malformed payloads in worldW (whose credential
is expired with a refresh token available) are rejected with an empty call
trace — in particular no refresh exchange happens. -/
theorem validation_witness :
    delete_bulk worldW .noValue = ([], .invalid "No playlists provided")
    ∧ delete_playlist_items_bulk worldW (.jlist []) = ([], .invalid "No items provided")
    ∧ merge_playlists worldW (some "") (.jlist ["A"]) none =
        ([], .invalid "Invalid playlist selection")
    ∧ merge_playlists worldW (some "T") (.jlist ["A"]) (some "   ") =
        ([], .invalid "New name is required")
    ∧ transfer_playlist_items worldW (some "D")
        (.jlist [TransferEntry.entry (some "v") none]) (some "bogus") =
        ([], .invalid "Invalid transfer mode")
    ∧ transfer_playlist_items worldW none
        (.jlist [TransferEntry.entry (some "v") none]) (some "move") =
        ([], .invalid "Destination playlist is required") := by
  have h := validation_short_circuits worldW
  refine ⟨h.1 _ rfl, h.2.1 _ rfl, h.2.2.1 _ _ _ (Or.inl rfl), ?_, ?_, ?_⟩
  · exact h.2.2.2.1 (some "T") (.jlist ["A"]) "   " rfl (by decide) (by decide)
  · exact h.2.2.2.2.1 _ _ _ (by decide) (by decide)
  · exact h.2.2.2.2.2.1 _ _ _ (Or.inr (by decide)) rfl

/-- Specification predicate: an item whose (defaulted) title is one of the
provider sentinels for a removed or access-restricted video. -/
def is_orphan (it : PageItem) : Bool :=
  it.title.getD "" = "Deleted video" ∨ it.title.getD "" = "Private video"

/-- Specification of the simplified entry the items endpoint returns for a
kept item. -/
def simplifyItem (it : PageItem) : SimpleItem :=
  { playlistItemId := it.itemId, videoId := it.videoId,
    title := it.title.getD "", thumbnail := it.thumbnail }

theorem items_scan_loop_spec (page : List PageItem) (s0 : List SimpleItem)
    (d0 : List (Option String)) :
    items_scan_loop page (s0, d0) =
      (s0 ++ (page.filter (fun it => !is_orphan it)).map simplifyItem,
        d0 ++ (page.filter is_orphan).map (fun it => it.itemId)) := by
  induction page generalizing s0 d0 with
  | nil => simp [items_scan_loop]
  | cons it rest ih =>
    by_cases h : it.title.getD "" = "Deleted video" ∨ it.title.getD "" = "Private video"
    · have h2 : ¬(¬it.title.getD "" = "Deleted video" ∧ ¬it.title.getD "" = "Private video") := by
        tauto
      simp [items_scan_loop, h, h2, ih, is_orphan, List.filter_cons, simplifyItem]
    · have h2 : ¬it.title.getD "" = "Deleted video" ∧ ¬it.title.getD "" = "Private video" := by
        tauto
      simp [items_scan_loop, h, h2, ih, is_orphan, List.filter_cons, simplifyItem]

theorem orphan_delete_loop_spec (w : World) (dels : List (Option String))
    (cs : List Call) (n : Nat) :
    orphan_delete_loop w dels (cs, n) =
      (cs ++ dels.map Call.playlistItemsDelete,
        n + dels.countP (fun i => (w.deleteItemErr i).isNone)) := by
  induction dels generalizing cs n with
  | nil => simp [orphan_delete_loop]
  | cons i rest ih =>
    cases h : w.deleteItemErr i <;>
      simp [orphan_delete_loop, h, ih, List.countP_cons] <;> omega

/-- C9: the items endpoint excludes every sentinel-titled item from the
returned list, attempts — within the same request — one deletion per
sentinel-titled item (in page order), reports in autoRemoved only the
count of deletions that succeeded, and its response (whose type has no
failure field, mirroring the dict built by the handler) carries no trace
of failed orphan deletions: a deletion failure only lowers autoRemoved. -/
theorem playlist_items_prunes_orphans (w : World) (pid : String)
    (page : List PageItem) (tok : Option String) :
    playlist_items w pid page tok =
      (clientCalls w ++ [Call.playlistItemsList pid] ++
          (page.filter is_orphan).map (fun it => Call.playlistItemsDelete it.itemId),
        { items := (page.filter (fun it => !is_orphan it)).map simplifyItem,
          nextPageToken := tok,
          autoRemoved := ((page.filter is_orphan).map (fun it => it.itemId)).countP
            (fun i => (w.deleteItemErr i).isNone) }) := by
  simp [playlist_items, items_scan_loop_spec, orphan_delete_loop_spec, List.map_map]

/-- Validity of an item for the dedupe scan: both its video id and its item
id are truthy (the scan skips items where either is missing or empty). -/
def dedupeValid (it : SrcItem) : Bool := truthyS it.videoId && truthyS it.itemId

/-- Video id of a valid item. -/
def vidOf (it : SrcItem) : String := it.videoId.getD ""

/-- Item id of a valid item. -/
def idOf (it : SrcItem) : String := it.itemId.getD ""

/-- Video ids of the valid items of a list, as a set. -/
def prevVids (l : List SrcItem) : Finset String :=
  ((l.filter dedupeValid).map vidOf).toFinset

/-- Specification of the dedupe queue relative to a set of video ids
already seen: the item ids of exactly those valid items whose video id is
in the seen set or occurred on a valid item earlier in the list, in list
order. -/
def spec_dup_from (seen : Finset String) (l : List SrcItem) : List String :=
  (List.range l.length).filterMap (fun i =>
    let it := l.getD i ⟨none, none⟩
    if dedupeValid it = true ∧ vidOf it ∈ seen ∪ prevVids (l.take i) then
      some (idOf it)
    else none)

/-- Specification of the dedupe queue (the spec's stable first-occurrence
policy): for a video id occurring at positions i1 < i2 < ... < ik among the
valid items, the item at i1 is kept and exactly the items at i2..ik are
queued, in that order. -/
def spec_duplicates (l : List SrcItem) : List String :=
  (List.range l.length).filterMap (fun i =>
    let it := l.getD i ⟨none, none⟩
    if dedupeValid it = true ∧ vidOf it ∈ prevVids (l.take i) then
      some (idOf it)
    else none)

theorem filterMap_ext {α β : Type} (f g : α → Option β) (l : List α)
    (h : ∀ a, f a = g a) : l.filterMap f = l.filterMap g := by
  induction l with
  | nil => rfl
  | cons a t ih => simp only [List.filterMap_cons, h, ih]

theorem prevVids_cons (it : SrcItem) (l : List SrcItem) :
    prevVids (it :: l) =
      if dedupeValid it then insert (vidOf it) (prevVids l) else prevVids l := by
  by_cases h : dedupeValid it <;> simp [prevVids, List.filter_cons, h]

theorem spec_dup_from_cons (seen : Finset String) (it : SrcItem)
    (rest : List SrcItem) :
    spec_dup_from seen (it :: rest) =
      (if dedupeValid it = true ∧ vidOf it ∈ seen then [idOf it] else []) ++
        spec_dup_from (if dedupeValid it then insert (vidOf it) seen else seen) rest := by
  have hset : ∀ s : Finset String,
      seen ∪ (if dedupeValid it then insert (vidOf it) s else s) =
        (if dedupeValid it then insert (vidOf it) seen else seen) ∪ s := by
    intro s
    by_cases h : dedupeValid it <;>
      simp [h, Finset.union_insert, Finset.insert_union]
  unfold spec_dup_from
  rw [List.length_cons, List.range_succ_eq_map, List.filterMap_cons,
    List.filterMap_map]
  have htail : ∀ i : Nat,
      ((fun i : Nat =>
        let a := (it :: rest).getD i ⟨none, none⟩
        if dedupeValid a = true ∧ vidOf a ∈ seen ∪ prevVids ((it :: rest).take i) then
          some (idOf a)
        else none) ∘ Nat.succ) i =
      (fun i : Nat =>
        let a := rest.getD i ⟨none, none⟩
        if dedupeValid a = true ∧
            vidOf a ∈ (if dedupeValid it then insert (vidOf it) seen else seen) ∪
              prevVids (rest.take i) then
          some (idOf a)
        else none) i := by
    intro i
    simp only [Function.comp_apply, List.getD_cons_succ, List.take_succ_cons,
      prevVids_cons, hset]
  rw [filterMap_ext _ _ _ htail]
  by_cases h : dedupeValid it = true ∧ vidOf it ∈ seen
  · simp [h.1, h.2, prevVids]
  · simp only [List.take_zero, prevVids, List.filter_nil, List.map_nil,
      List.toFinset_nil, Finset.union_empty]
    simp [h]

theorem dedupe_scan_spec (l : List SrcItem) :
    ∀ seen : Finset String, dedupe_scan l seen = spec_dup_from seen l := by
  induction l with
  | nil =>
    intro seen
    simp [dedupe_scan, spec_dup_from]
  | cons it rest ih =>
    intro seen
    rw [spec_dup_from_cons]
    cases hv : it.videoId with
    | none =>
      have hval : dedupeValid it = false := by simp [dedupeValid, truthyS, hv]
      simp [dedupe_scan, hv, hval, ih seen]
    | some v =>
      cases hid : it.itemId with
      | none =>
        have hval : dedupeValid it = false := by
          simp [dedupeValid, truthyS, hv, hid]
        simp [dedupe_scan, hv, hid, hval, ih seen]
      | some pid =>
        by_cases hesc : v = "" ∨ pid = ""
        · have hval : dedupeValid it = false := by
            rcases hesc with h | h <;> simp [dedupeValid, truthyS, hv, hid, h]
          simp [dedupe_scan, hv, hid, hesc, hval, ih seen]
        · have hval : dedupeValid it = true := by
            push_neg at hesc
            simp [dedupeValid, truthyS, hv, hid, hesc.1, hesc.2]
          have hvid : vidOf it = v := by simp [vidOf, hv]
          have hidv : idOf it = pid := by simp [idOf, hid]
          by_cases hseen : v ∈ seen
          · have hins : insert v seen = seen := Finset.insert_eq_self.mpr hseen
            simp [dedupe_scan, hv, hid, hesc, hseen, hval, hvid, hidv, hins, ih seen]
          · simp [dedupe_scan, hv, hid, hesc, hseen, hval, hvid, hidv,
              ih (insert v seen)]

theorem dedupe_scan_empty (l : List SrcItem) :
    dedupe_scan l ∅ = spec_duplicates l := by
  rw [dedupe_scan_spec l ∅]
  unfold spec_dup_from spec_duplicates
  exact filterMap_ext _ _ _ (fun i => by simp)

theorem dedupe_delete_loop_spec (w : World) (l : List String)
    (cs : List Call) (fs : List Failure) :
    dedupe_delete_loop w l (cs, fs) =
      (cs ++ l.map (fun i => Call.playlistItemsDelete (some i)),
        fs ++ spec_bulk_failures (fun i => w.deleteItemErr (some i)) l) := by
  induction l generalizing cs fs with
  | nil => simp [dedupe_delete_loop, spec_bulk_failures]
  | cons i rest ih =>
    cases h : w.deleteItemErr (some i) <;>
      simp [dedupe_delete_loop, h, ih, spec_bulk_failures, List.filter_cons]

/-- C2: the dedupe scan implements the stable first-occurrence policy: over
any item sequence it queues for deletion exactly the item ids of the valid
items whose video id already occurred on an earlier valid item — so for a
video id occurring at positions i1 < i2 < ... < ik, the item at i1 is kept
and exactly the items at i2..ik are queued, in that order; and the
dedupe handler attempts exactly one deletion per queued item id, in queue
order, after the listing call. -/
theorem dedupe_stable_first_occurrence (w : World) (pid : String)
    (l : List SrcItem) :
    dedupe_scan l ∅ = spec_duplicates l
    ∧ (dedupe_playlist w pid).1 =
        clientCalls w ++ [Call.playlistItemsList pid] ++
          (spec_duplicates (w.itemsOf pid)).map
            (fun i => Call.playlistItemsDelete (some i)) := by
  refine ⟨dedupe_scan_empty l, ?_⟩
  simp [dedupe_playlist, dedupe_delete_loop_spec, dedupe_scan_empty]

/-- Specification of the copy pass of merge for one source playlist: one
insert attempt (in item order) per item with a truthy video id; the calls
attempted, the failures collected and the number of successful inserts. -/
def spec_copy_pass (w : World) (target pid : String) :
    List SrcItem → List Call × List Failure × Nat
  | [] => ([], [], 0)
  | it :: rest =>
    let r := spec_copy_pass w target pid rest
    if truthyS it.videoId = false then r
    else
      let v := it.videoId.getD ""
      match w.insertErr target v with
      | none => (Call.playlistItemsInsert target v :: r.1, r.2.1, r.2.2 + 1)
      | some e =>
        (Call.playlistItemsInsert target v :: r.1,
          { playlist_id := some pid, video_id := some v, error := e } :: r.2.1,
          r.2.2)

/-- Specification of the deletion attempt on one source playlist: no
failure on success, one (playlist_id, message) failure otherwise. -/
def spec_delete_one (w : World) (pid : String) : List Failure :=
  match w.deletePlaylistErr pid with
  | none => []
  | some e => [{ playlist_id := some pid, error := e }]

/-- Specification of the rename step of merge on the (stripped) new name:
no call when no truthy name was given, otherwise one update attempt. -/
def spec_rename_calls (target : String) (nm : Option String) : List Call :=
  match nm with
  | some s => if s = "" then [] else [Call.playlistsUpdate target s]
  | none => []

/-- Specification of the failures of the rename step of merge. -/
def spec_rename_failures (w : World) (target : String) (nm : Option String) :
    List Failure :=
  match nm with
  | some s =>
    if s = "" then []
    else
      match w.updateErr target s with
      | none => []
      | some e => [{ playlist_id := some target, error := e }]
  | none => []

theorem merge_insert_loop_spec (w : World) (target pid : String)
    (items : List SrcItem) :
    ∀ st : List Call × List Failure × Nat,
    merge_insert_loop w target pid items st =
      (st.1 ++ (spec_copy_pass w target pid items).1,
        st.2.1 ++ (spec_copy_pass w target pid items).2.1,
        st.2.2 + (spec_copy_pass w target pid items).2.2) := by
  induction items with
  | nil =>
    intro st
    simp [merge_insert_loop, spec_copy_pass]
  | cons it rest ih =>
    intro st
    obtain ⟨cs, fs, n⟩ := st
    by_cases hv : truthyS it.videoId = false
    · simp [merge_insert_loop, spec_copy_pass, hv, ih]
    · cases he : w.insertErr target (it.videoId.getD "") <;>
        simp [merge_insert_loop, spec_copy_pass, hv, he, ih] <;> omega

theorem merge_delete_loop_spec (w : World) (srcs : List String) :
    ∀ st : List Call × List Failure,
    merge_delete_loop w srcs st =
      (st.1 ++ srcs.map Call.playlistsDelete,
        st.2 ++ srcs.foldr (fun pid acc => spec_delete_one w pid ++ acc) []) := by
  induction srcs with
  | nil =>
    intro st
    simp [merge_delete_loop]
  | cons pid rest ih =>
    intro st
    obtain ⟨cs, fs⟩ := st
    cases h : w.deletePlaylistErr pid <;>
      simp [merge_delete_loop, h, ih, spec_delete_one]

/-- Specification of the whole merge request for two sources A and B into
target T with an already-stripped optional new name: the three passes
(copy from A, copy from B; delete A, delete B; rename T) computed
independently of one another, their calls in series and their failures
concatenated in pass order. -/
def spec_merge_two (w : World) (T A B : String) (nm : Option String) :
    List Call × HResult MergeResp :=
  let copyA := spec_copy_pass w T A (w.itemsOf A)
  let copyB := spec_copy_pass w T B (w.itemsOf B)
  let failures := copyA.2.1 ++ copyB.2.1 ++ spec_delete_one w A ++
    spec_delete_one w B ++ spec_rename_failures w T nm
  (clientCalls w ++ (Call.playlistItemsList A :: copyA.1) ++
      (Call.playlistItemsList B :: copyB.1) ++
      [Call.playlistsDelete A, Call.playlistsDelete B] ++
      spec_rename_calls T nm,
    .ok { success := failures.isEmpty, failures := failures,
          added := copyA.2.2 + copyB.2.2 })

/-- C4: a merge of sources [A, B] into T with a (valid) optional new name
first attempts to copy every item of A and then of B into T, then attempts
to delete A and then B, then attempts the rename of T; each pass runs
regardless of failures in the earlier passes (the passes are computed
independently of one another by spec_merge_two) and the failures of the
three passes are concatenated into a single combined list. -/
theorem merge_runs_all_passes (w : World) (A B T : String) (nm : Option String)
    (hT : T ≠ "") (hnm : nm.map pystrip ≠ some "") :
    merge_playlists w (some T) (.jlist [A, B]) nm =
      spec_merge_two w T A B (nm.map pystrip) := by
  have hTt : truthyS (some T) = true := by simp [truthyS, hT]
  cases hnm2 : nm.map pystrip with
  | none =>
    simp [merge_playlists, hnm2, hTt, listArg, merge_copy_sources,
      merge_insert_loop_spec, merge_delete_loop_spec, spec_merge_two,
      spec_rename_calls, spec_rename_failures]
  | some s =>
    have hs : s ≠ "" := by
      intro h
      exact hnm (by rw [hnm2, h])
    cases hu : w.updateErr T s <;>
      simp [merge_playlists, hnm2, hTt, hs, hu, listArg, merge_copy_sources,
        merge_insert_loop_spec, merge_delete_loop_spec, spec_merge_two,
        spec_rename_calls, spec_rename_failures]

/-- Witness for C4: merging A and B of worldW into T with new name "New"
performs refresh, both listings, all three insert attempts (the v2 insert
fails), both deletions and the rename, and reports the single combined
failure. -/
theorem merge_witness :
    merge_playlists worldW (some "T") (.jlist ["A", "B"]) (some "New") =
      ([Call.refreshToken, Call.playlistItemsList "A",
        Call.playlistItemsInsert "T" "v1", Call.playlistItemsInsert "T" "v2",
        Call.playlistItemsList "B", Call.playlistItemsInsert "T" "v3",
        Call.playlistsDelete "A", Call.playlistsDelete "B",
        Call.playlistsUpdate "T" "New"],
        .ok { success := false,
              failures := [{ playlist_id := some "A", video_id := some "v2", error := "dup" }],
              added := 2 }) := by
  have h := merge_runs_all_passes worldW "A" "B" "T" (some "New")
    (by decide) (by decide)
  exact h.trans (by decide)

/-- Specification of the insert pass of the transfer endpoint: per entry in
input order, non-dicts are skipped, a falsy videoId contributes a
"Missing videoId" failure, otherwise one insert attempt into the
destination; the delete queue collects — in "move" mode — the truthy
playlistItemIds of exactly the entries whose insert succeeded. -/
def spec_transfer_insert (w : World) (dest mode : String) :
    List TransferEntry → List Call × List Failure × Nat × List String
  | [] => ([], [], 0, [])
  | .notDict :: rest => spec_transfer_insert w dest mode rest
  | .entry vid pid :: rest =>
    let r := spec_transfer_insert w dest mode rest
    if truthyS vid = false then
      (r.1, { videoId := vid, error := "Missing videoId" } :: r.2.1, r.2.2.1, r.2.2.2)
    else
      let v := vid.getD ""
      match w.insertErr dest v with
      | none =>
        (Call.playlistItemsInsert dest v :: r.1, r.2.1, r.2.2.1 + 1,
          if mode = "move" && truthyS pid then pid.getD "" :: r.2.2.2 else r.2.2.2)
      | some e =>
        (Call.playlistItemsInsert dest v :: r.1,
          { videoId := some v, error := e } :: r.2.1, r.2.2.1, r.2.2.2)

/-- Specification of the deletion pass of the transfer endpoint over the
queued source-item ids: one delete attempt per queued id in order, counting
successes. -/
def spec_transfer_delete (w : World) :
    List String → List Call × List Failure × Nat
  | [] => ([], [], 0)
  | i :: rest =>
    let r := spec_transfer_delete w rest
    match w.deleteItemErr (some i) with
    | none => (Call.playlistItemsDelete (some i) :: r.1, r.2.1, r.2.2 + 1)
    | some e =>
      (Call.playlistItemsDelete (some i) :: r.1,
        { fid := some i, error := e } :: r.2.1, r.2.2)

/-- Specification of the move-mode delete queue: exactly the truthy
playlistItemIds of the dict entries with a truthy videoId whose insert into
the destination succeeded, in input order — an entry whose insert failed
never enters the queue. -/
def spec_move_queue (w : World) (dest : String) (l : List TransferEntry) :
    List String :=
  l.filterMap (fun it =>
    match it with
    | .notDict => none
    | .entry vid pid =>
      if truthyS vid && (w.insertErr dest (vid.getD "")).isNone && truthyS pid then
        some (pid.getD "")
      else none)

theorem transfer_insert_loop_spec (w : World) (dest mode : String)
    (items : List TransferEntry) :
    ∀ st : List Call × List Failure × Nat × List String,
    transfer_insert_loop w dest mode items st =
      (st.1 ++ (spec_transfer_insert w dest mode items).1,
        st.2.1 ++ (spec_transfer_insert w dest mode items).2.1,
        st.2.2.1 + (spec_transfer_insert w dest mode items).2.2.1,
        st.2.2.2 ++ (spec_transfer_insert w dest mode items).2.2.2) := by
  induction items with
  | nil =>
    intro st
    simp [transfer_insert_loop, spec_transfer_insert]
  | cons it rest ih =>
    intro st
    obtain ⟨cs, fs, n, q⟩ := st
    cases it with
    | notDict => simp [transfer_insert_loop, spec_transfer_insert, ih]
    | entry vid pid =>
      by_cases hv : truthyS vid = false
      · simp [transfer_insert_loop, spec_transfer_insert, hv, ih]
      · cases he : w.insertErr dest (vid.getD "") <;>
          by_cases hq : (mode = "move" && truthyS pid) = true <;>
          simp [transfer_insert_loop, spec_transfer_insert, hv, he, hq, ih] <;>
          omega

theorem transfer_delete_loop_spec (w : World) (ids : List String) :
    ∀ st : List Call × List Failure × Nat,
    transfer_delete_loop w ids st =
      (st.1 ++ (spec_transfer_delete w ids).1,
        st.2.1 ++ (spec_transfer_delete w ids).2.1,
        st.2.2 + (spec_transfer_delete w ids).2.2) := by
  induction ids with
  | nil =>
    intro st
    simp [transfer_delete_loop, spec_transfer_delete]
  | cons i rest ih =>
    intro st
    obtain ⟨cs, fs, n⟩ := st
    cases h : w.deleteItemErr (some i) <;>
      simp [transfer_delete_loop, spec_transfer_delete, h, ih] <;> omega

theorem spec_transfer_insert_queue (w : World) (dest : String)
    (l : List TransferEntry) :
    (spec_transfer_insert w dest "move" l).2.2.2 = spec_move_queue w dest l := by
  induction l with
  | nil => simp [spec_transfer_insert, spec_move_queue]
  | cons it rest ih =>
    cases it with
    | notDict => simp [spec_transfer_insert, spec_move_queue, List.filterMap_cons, ih]
    | entry vid pid =>
      by_cases hv : truthyS vid = false
      · simp [spec_transfer_insert, spec_move_queue, List.filterMap_cons, hv, ih]
      · have hv2 : truthyS vid = true := by
          cases h : truthyS vid
          · exact absurd h hv
          · rfl
        cases he : w.insertErr dest (vid.getD "") <;>
          cases hp : truthyS pid <;>
          simp [spec_transfer_insert, spec_move_queue, List.filterMap_cons,
            hv, hv2, he, hp, ih]

theorem spec_transfer_delete_calls (w : World) (ids : List String) :
    (spec_transfer_delete w ids).1 =
      ids.map (fun i => Call.playlistItemsDelete (some i)) := by
  induction ids with
  | nil => simp [spec_transfer_delete]
  | cons i rest ih =>
    cases h : w.deleteItemErr (some i) <;> simp [spec_transfer_delete, h, ih]

/-- Specification of the whole move-mode transfer: the insert pass over the
entries, then the deletion pass over exactly the queue of successfully
inserted entries; failures are insert failures followed by delete failures. -/
def spec_transfer_move (w : World) (D : String) (l : List TransferEntry) :
    List Call × HResult TransferResp :=
  let ins := spec_transfer_insert w D "move" l
  let del := spec_transfer_delete w (spec_move_queue w D l)
  (clientCalls w ++ ins.1 ++ del.1,
    .ok { success := (ins.2.1 ++ del.2.1).isEmpty, added := ins.2.2.1,
          removed := del.2.2, failures := ins.2.1 ++ del.2.1 })

/-- C10: in a move-mode transfer, the source-item deletion attempts are
exactly one per entry of spec_move_queue — the entries whose insert into
the destination succeeded (and whose playlistItemId is truthy) — in input
order and only after the whole insert pass; an entry whose insert failed
never enters the queue, so its source item is never deleted. -/
theorem transfer_move_no_delete_on_failed_insert (w : World) (D : String)
    (l : List TransferEntry) (hD : D ≠ "") (hl : l ≠ []) :
    transfer_playlist_items w (some D) (.jlist l) (some "move") =
      spec_transfer_move w D l
    ∧ (spec_transfer_delete w (spec_move_queue w D l)).1 =
      (spec_move_queue w D l).map (fun i => Call.playlistItemsDelete (some i)) := by
  have hDt : truthyS (some D) = true := by simp [truthyS, hD]
  have hl2 : l.isEmpty = false := by
    cases l with
    | nil => exact absurd rfl hl
    | cons a r => rfl
  have hmode : transfer_mode (some "move") = "move" := by decide
  have hcond : ¬("move" ≠ "copy" ∧ "move" ≠ "move") := by simp
  refine ⟨?_, spec_transfer_delete_calls w _⟩
  simp only [transfer_playlist_items, hmode]
  rw [if_neg hcond]
  rw [hDt]
  rw [if_neg (by simp : ¬(true = false))]
  have hla : listArg (JsonList.jlist l) = some l := by simp [listArg, hl2]
  rw [hla]
  simp only [Option.getD_some]
  rw [transfer_insert_loop_spec w D "move" l (clientCalls w, [], 0, [])]
  simp only [List.nil_append, Nat.zero_add, spec_transfer_insert_queue]
  by_cases hq : spec_move_queue w D l = []
  · simp [hq, spec_transfer_move, spec_transfer_delete,
      spec_transfer_insert_queue]
  · have hq2 : (spec_move_queue w D l).isEmpty = false := by
      cases hq3 : spec_move_queue w D l with
      | nil => exact absurd hq3 hq
      | cons a r => rfl
    simp [hq2, transfer_delete_loop_spec, spec_transfer_move,
      spec_transfer_insert_queue]

/-- Witness for C10: moving five entries into D in worldW — the v2 insert
fails, the v3 entry has no item id, one entry is not a dict and one has no
video id — deletes only the source item s1, whose insert succeeded. -/
theorem transfer_move_witness :
    transfer_playlist_items worldW (some "D")
      (.jlist [TransferEntry.entry (some "v1") (some "s1"),
        TransferEntry.entry (some "v2") (some "s2"),
        TransferEntry.entry (some "v3") none,
        TransferEntry.notDict,
        TransferEntry.entry none (some "s4")]) (some "move") =
      ([Call.refreshToken, Call.playlistItemsInsert "D" "v1",
        Call.playlistItemsInsert "D" "v2", Call.playlistItemsInsert "D" "v3",
        Call.playlistItemsDelete (some "s1")],
        .ok { success := false, added := 2, removed := 1,
              failures := [{ videoId := some "v2", error := "dup" },
                { videoId := none, error := "Missing videoId" }] }) := by
  have h := (transfer_move_no_delete_on_failed_insert worldW "D"
    [TransferEntry.entry (some "v1") (some "s1"),
      TransferEntry.entry (some "v2") (some "s2"),
      TransferEntry.entry (some "v3") none,
      TransferEntry.notDict,
      TransferEntry.entry none (some "s4")] (by decide) (by decide)).1
  exact h.trans (by decide)
